import Mathlib

/-!
Verification of the ingestion and
type-inference pipeline (src/main.py), as a shallow embedding.

Modelling conventions:
- A pandas DataFrame is a list of named columns, each an ordered list of
  cell values.  Cells are modelled after the str() rendering that
  guess_str_type applies first, so cells are strings and the numpy
  missing value NaN appears as the string "nan".
- Library calls are parameters of the embedded functions: dp models the
  success of dateparser.parse on a string, le models ast.literal_eval
  composed with reading off the runtime type name, returning none when
  literal_eval raises.  Concrete model instances are provided for
  witnesses.
- Python exceptions are modelled with Except String; a caught exception
  becomes an Option none.
- The Python str methods strip, in, split and indexing are implemented
  over the underlying character list with structural recursion, so that
  every definition evaluates inside the kernel.
-/

namespace Scrapper

/-- Models Python str.strip(): drop whitespace from both ends. -/
def pyStrip (s : String) : String :=
  ⟨((s.data.dropWhile Char.isWhitespace).reverse.dropWhile Char.isWhitespace).reverse⟩

/-- Models the Python test c in s for a single character c. -/
def pyContains (s : String) (c : Char) : Bool :=
  s.data.contains c

/-- Splits a character list on a separator character, keeping empty
pieces, like Python str.split with a one-character separator. -/
def splitOnChar (c : Char) : List Char → List Char → List (List Char)
  | [], acc => [acc.reverse]
  | x :: xs, acc =>
    if x == c then acc.reverse :: splitOnChar c xs []
    else splitOnChar c xs (x :: acc)

/-- The pieces of a string split on a separator character. -/
def pySplit (s : String) (c : Char) : List (List Char) :=
  splitOnChar c s.data []

/-- A pandas DataFrame: ordered named columns of string-rendered cells. -/
structure DataFrame where
  cols : List (String × List String)
deriving DecidableEq

/-- Embeds choose_type_priority (src/main.py lines 120-139): membership
tests on the list of guessed type names, in fixed order.  The list may
contain none, the guess contributed by missing values. -/
def choose_type_priority (types : List (Option String)) : String :=
  if some "str" ∈ types then "VARCHAR(100)"
  else if some "float" ∈ types then "DECIMAL(17,4)"
  else if some "int" ∈ types then "INT"
  else if some "date" ∈ types then "DATETIME"
  else "VARCHAR(100)"

/-- Embeds guess_str_type (src/main.py lines 142-163), parameterized by
the dateparser success predicate dp and the literal_eval type-name
function le (none when literal_eval raises, in which case the except
branch yields the guess str). -/
def guess_str_type (dp : String → Bool) (le : String → Option String)
    (value : String) : Option String :=
  let s := pyStrip value
  if s = "nan" then none
  else if (pyContains s '-' || pyContains s '/') && decide (7 < s.length)
      && decide (s.length < 11) && dp s then some "date"
  else match le s with
    | some t => some t
    | none => some "str"

/-- Helper for drop_duplicates: keeps elements not yet seen, in order. -/
def dd_aux {α : Type} [DecidableEq α] (seen : List α) : List α → List α
  | [] => []
  | x :: xs => if x ∈ seen then dd_aux seen xs else x :: dd_aux (x :: seen) xs

/-- Models pandas Series.drop_duplicates: keeps the first occurrence of
each value, preserving order. -/
def drop_duplicates {α : Type} [DecidableEq α] (l : List α) : List α :=
  dd_aux [] l

/-- Models the dataframe slice df[:100] applied column-wise, generalized
over the row bound. -/
def df_head (n : Nat) (df : DataFrame) : DataFrame :=
  ⟨df.cols.map (fun c => (c.1, c.2.take n))⟩

/-- Embeds identify_colummns_types (src/main.py lines 166-181): slice the
first 100 rows, then per column apply guess_str_type, drop duplicates and
resolve with choose_type_priority.  The Python dict, which preserves
insertion order, is modelled as an association list in column order. -/
def identify_colummns_types (dp : String → Bool) (le : String → Option String)
    (df : DataFrame) : List (String × String) :=
  let df_partial := df_head 100 df
  df_partial.cols.map (fun c =>
    (c.1, choose_type_priority (drop_duplicates (c.2.map (guess_str_type dp le)))))

/-- Nonempty all-digit string whose first digit is nonzero unless it is a
single digit: the Python nonnegative decimal integer literals that
ast.literal_eval accepts. -/
def isIntLit (s : String) : Bool :=
  decide (0 < s.length) && s.data.all Char.isDigit
    && (decide (s.length = 1) || (s.data.headD '0') != '0')

/-- Digits, a dot, digits: the simple Python float literals. -/
def isFloatLit (s : String) : Bool :=
  match pySplit s '.' with
  | [a, b] => decide (0 < a.length) && a.all Char.isDigit
      && decide (0 < b.length) && b.all Char.isDigit
  | _ => false

/-- Model of Python ast.literal_eval followed by reading off the runtime
type name, restricted to nonnegative integer numerals, simple decimal
numerals and the boolean literals; every other input is treated as a
literal_eval failure (none).  This covers exactly the literal shapes the
concrete test columns use. -/
def literal_eval_model (s : String) : Option String :=
  if isIntLit s then some "int"
  else if isFloatLit s then some "float"
  else if s = "True" || s = "False" then some "bool"
  else none

theorem mem_dd_aux {α : Type} [DecidableEq α] (a : α) :
    ∀ (l seen : List α), a ∈ dd_aux seen l ↔ a ∈ l ∧ a ∉ seen := by
  intro l
  induction l with
  | nil => intro seen; simp [dd_aux]
  | cons x xs ih =>
    intro seen
    by_cases hx : x ∈ seen
    · rw [dd_aux, if_pos hx, ih]
      constructor
      · rintro ⟨h1, h2⟩
        exact ⟨List.mem_cons_of_mem x h1, h2⟩
      · rintro ⟨h1, h2⟩
        rcases List.mem_cons.mp h1 with rfl | h1
        · exact absurd hx h2
        · exact ⟨h1, h2⟩
    · rw [dd_aux, if_neg hx]
      constructor
      · intro h
        rcases List.mem_cons.mp h with rfl | h
        · exact ⟨List.mem_cons_self a xs, hx⟩
        · rcases (ih (x :: seen)).mp h with ⟨h1, h2⟩
          exact ⟨List.mem_cons_of_mem x h1,
            fun hs => h2 (List.mem_cons_of_mem x hs)⟩
      · rintro ⟨h1, h2⟩
        rcases List.mem_cons.mp h1 with rfl | h1
        · exact List.mem_cons_self a _
        · by_cases hax : a = x
          · rw [hax]; exact List.mem_cons_self x _
          · refine List.mem_cons_of_mem x ((ih (x :: seen)).mpr ⟨h1, ?_⟩)
            intro hs
            rcases List.mem_cons.mp hs with h | h
            · exact hax h
            · exact h2 h

@[simp] theorem mem_drop_duplicates {α : Type} [DecidableEq α] (a : α) (l : List α) :
    a ∈ drop_duplicates l ↔ a ∈ l := by
  simp [drop_duplicates, mem_dd_aux]

theorem choose_type_priority_dd (gs : List (Option String)) :
    choose_type_priority (drop_duplicates gs) = choose_type_priority gs := by
  simp [choose_type_priority]

/-- C1: each column resolves by the fixed priority string, float,
integer, date over the set of guesses of the sampled cells, independent
of frequency; in particular the columns 1, 2.5, x and 1, 2 and 1, 2.5
resolve to VARCHAR(100), INT and DECIMAL(17,4) respectively. -/
theorem c1_priority_resolution (dp : String → Bool) (le : String → Option String)
    (df : DataFrame) :
    (identify_colummns_types dp le df =
      df.cols.map (fun c =>
        (c.1,
          let gs := (c.2.take 100).map (guess_str_type dp le)
          if some "str" ∈ gs then "VARCHAR(100)"
          else if some "float" ∈ gs then "DECIMAL(17,4)"
          else if some "int" ∈ gs then "INT"
          else if some "date" ∈ gs then "DATETIME"
          else "VARCHAR(100)")))
    ∧ identify_colummns_types (fun _ => false) literal_eval_model
        ⟨[("c", ["1", "2.5", "x"])]⟩ = [("c", "VARCHAR(100)")]
    ∧ identify_colummns_types (fun _ => false) literal_eval_model
        ⟨[("c", ["1", "2"])]⟩ = [("c", "INT")]
    ∧ identify_colummns_types (fun _ => false) literal_eval_model
        ⟨[("c", ["1", "2.5"])]⟩ = [("c", "DECIMAL(17,4)")] := by
  refine ⟨?_, by decide, by decide, by decide⟩
  unfold identify_colummns_types df_head
  rw [List.map_map]
  apply List.map_congr_left
  intro c _
  simp only [Function.comp]
  rw [choose_type_priority_dd]
  rfl

theorem le_model_ne_date (s : String) : literal_eval_model s ≠ some "date" := by
  unfold literal_eval_model
  split_ifs <;> simp

/-- Claim C2 as stated is false at the missing marker: the trimmed text
nan has length at most 7 and is not classified as date, but it does not
fall through to literal parsing either — the code returns no guess,
while the claimed fall-through would yield the guess str. -/
theorem c2_counterexample :
    (pyStrip "nan").length ≤ 7
    ∧ guess_str_type (fun _ => true) literal_eval_model "nan" = none
    ∧ guess_str_type (fun _ => true) literal_eval_model "nan"
        ≠ some ((literal_eval_model (pyStrip "nan")).getD "str") := by
  decide

/-- C2 amended: a value is classified as date exactly when its trimmed
text contains a dash or slash, has length strictly between 7 and 11 and
the date parser succeeds on it; a non-missing value outside the length
window is never classified as date and instead falls through to literal
parsing, with str on failure; a value trimming to the missing marker nan
contributes no guess at all.  The hypothesis on le records that the
runtime type name returned by ast.literal_eval is never date. -/
theorem c2_date_gate (dp : String → Bool) (le : String → Option String)
    (hle : ∀ s, le s ≠ some "date") (value : String) :
    (guess_str_type dp le value = some "date" ↔
      ((pyContains (pyStrip value) '-' || pyContains (pyStrip value) '/') = true
        ∧ 7 < (pyStrip value).length ∧ (pyStrip value).length < 11
        ∧ dp (pyStrip value) = true))
    ∧ (pyStrip value ≠ "nan" →
        ((pyStrip value).length ≤ 7 ∨ 11 ≤ (pyStrip value).length) →
        guess_str_type dp le value = some ((le (pyStrip value)).getD "str"))
    ∧ (pyStrip value = "nan" → guess_str_type dp le value = none) := by
  refine ⟨?_, ?_, ?_⟩
  · simp only [guess_str_type]
    by_cases hnan : pyStrip value = "nan"
    · rw [if_pos hnan]
      constructor
      · intro h; cases h
      · rintro ⟨h1, h2, h3, h4⟩
        rw [hnan] at h1
        exact absurd h1 (by decide)
    · rw [if_neg hnan]
      by_cases hc : ((pyContains (pyStrip value) '-' || pyContains (pyStrip value) '/')
          && decide (7 < (pyStrip value).length)
          && decide ((pyStrip value).length < 11) && dp (pyStrip value)) = true
      · rw [if_pos hc]
        simp only [Bool.and_eq_true, decide_eq_true_eq] at hc
        constructor
        · intro _; exact ⟨hc.1.1.1, hc.1.1.2, hc.1.2, hc.2⟩
        · intro _; rfl
      · rw [if_neg hc]
        constructor
        · intro h
          cases hle2 : le (pyStrip value) with
          | none => rw [hle2] at h; simp at h
          | some t => rw [hle2] at h; exact absurd (hle2.trans h) (hle _)
        · intro hcond
          exact absurd (by
            simp only [Bool.and_eq_true, decide_eq_true_eq]
            exact ⟨⟨⟨hcond.1, hcond.2.1⟩, hcond.2.2.1⟩, hcond.2.2.2⟩) hc
  · intro hnan hlen
    simp only [guess_str_type]
    rw [if_neg hnan, if_neg]
    · cases hle2 : le (pyStrip value) with
      | none => rfl
      | some t => rfl
    · intro hcc
      simp only [Bool.and_eq_true, decide_eq_true_eq] at hcc
      rcases hlen with h | h
      · exact absurd hcc.1.1.2 (by omega)
      · exact absurd hcc.1.2 (by omega)
  · intro h
    simp only [guess_str_type]
    rw [if_pos h]

theorem c2_date_gate_witness :
    guess_str_type (fun _ => true) literal_eval_model "2020-01-01" = some "date"
    ∧ guess_str_type (fun _ => true) literal_eval_model "2020-01-011" = some "str" := by
  have h1 := c2_date_gate (fun _ => true) literal_eval_model le_model_ne_date "2020-01-01"
  have h2 := c2_date_gate (fun _ => true) literal_eval_model le_model_ne_date "2020-01-011"
  refine ⟨h1.1.mpr (by decide), ?_⟩
  have hfall := h2.2.1 (by decide) (by decide)
  rw [hfall]
  decide

/-- The extension whitelist used inside zip archives (src/main.py line
20): note that it does not contain csv. -/
def ALLOWED_EXTS : List String := ["xls", "xlsx", "json", "xml", "rdf"]

/-- Models os.path.basename: the part after the last slash. -/
def py_basename (p : String) : String :=
  ⟨(pySplit p '/').getLastD []⟩

/-- Embeds filename_and_ext (src/main.py lines 184-190): the first and
last dot-separated pieces of the basename. -/
def filename_and_ext (f : String) : String × String :=
  let parts := pySplit (py_basename f) '.'
  (⟨parts.headD []⟩, ⟨parts.getLastD []⟩)

/-- Embeds the selection performed by process_zip (src/main.py lines
354-377): of the namelist of the archive, exactly the entries whose
extension is in ALLOWED_EXTS are extracted and processed, in order; the
rest are skipped and the loop continues. -/
def process_zip (namelist : List String) : List String :=
  namelist.filter (fun n => decide ((filename_and_ext n).2 ∈ ALLOWED_EXTS))

/-- Claim C4 as stated is false: a csv entry inside a zip archive is
skipped, because csv is not in the extension whitelist. -/
theorem c4_counterexample :
    process_zip ["data.csv"] = [] ∧ "csv" ∉ ALLOWED_EXTS := by
  decide

/-- C4 amended: a zip entry is processed exactly when its extension is in
the whitelist xls, xlsx, json, xml, rdf; every other entry — including
csv entries — is skipped without aborting the batch, as the concrete
archive with an unsupported entry between supported ones shows. -/
theorem c4_zip_filter (namelist : List String) (n : String) :
    (n ∈ process_zip namelist ↔
      n ∈ namelist ∧ (filename_and_ext n).2 ∈ ALLOWED_EXTS)
    ∧ process_zip ["a.xls", "b.csv", "notes.txt", "c.json"] = ["a.xls", "c.json"] := by
  constructor
  · simp [process_zip, List.mem_filter]
  · decide

/-- C5: type inference only looks at the first 100 rows — truncating the
table to its first 100 rows does not change the inferred mapping; in
particular a column of 100 integer cells followed by a text cell still
resolves to INT. -/
theorem c5_sampling (dp : String → Bool) (le : String → Option String)
    (df : DataFrame) :
    identify_colummns_types dp le df = identify_colummns_types dp le (df_head 100 df)
    ∧ identify_colummns_types (fun _ => false) literal_eval_model
        ⟨[("c", List.replicate 100 "1" ++ ["x"])]⟩ = [("c", "INT")] := by
  constructor
  · have hd : df_head 100 (df_head 100 df) = df_head 100 df := by
      unfold df_head
      simp [List.map_map, Function.comp, List.take_take]
    simp only [identify_colummns_types]
    rw [hd]
  · decide

/-- C6: a value trimming to the canonical missing marker nan contributes
no guess, and a column all of whose values are missing resolves to the
default VARCHAR(100). -/
theorem c6_missing_marker (dp : String → Bool) (le : String → Option String)
    (v name : String) (vals : List String)
    (h1 : pyStrip v = "nan") (h2 : ∀ x ∈ vals, pyStrip x = "nan") :
    guess_str_type dp le v = none
    ∧ identify_colummns_types dp le ⟨[(name, vals)]⟩ = [(name, "VARCHAR(100)")] := by
  constructor
  · simp only [guess_str_type]
    rw [if_pos h1]
  · have hg : ∀ g ∈ (vals.take 100).map (guess_str_type dp le), g = none := by
      intro g hgm
      rcases List.mem_map.mp hgm with ⟨x, hx, rfl⟩
      have hx2 := h2 x (List.take_subset _ _ hx)
      simp only [guess_str_type]
      rw [if_pos hx2]
    have hmem : ∀ t : String,
        some t ∉ drop_duplicates ((vals.take 100).map (guess_str_type dp le)) := by
      intro t ht
      have := hg _ ((mem_drop_duplicates _ _).mp ht)
      cases this
    have hch : choose_type_priority
        (drop_duplicates ((vals.take 100).map (guess_str_type dp le))) = "VARCHAR(100)" := by
      unfold choose_type_priority
      rw [if_neg (hmem "str"), if_neg (hmem "float"), if_neg (hmem "int"),
        if_neg (hmem "date")]
    simp only [identify_colummns_types, df_head, List.map_cons, List.map_nil]
    rw [hch]

theorem c6_missing_marker_witness :
    guess_str_type (fun _ => false) literal_eval_model " nan " = none
    ∧ identify_colummns_types (fun _ => false) literal_eval_model
        ⟨[("c", ["nan", "nan"])]⟩ = [("c", "VARCHAR(100)")] :=
  c6_missing_marker _ _ " nan " "c" ["nan", "nan"] (by decide) (by decide)

/-- C9: type inference is deterministic — it is a pure function of the
table contents, so any two runs on tables with the same columns give the
same mapping; two runs on the same table are the special case. -/
theorem c9_deterministic (dp : String → Bool) (le : String → Option String)
    (df1 df2 : DataFrame) (h : df1.cols = df2.cols) :
    identify_colummns_types dp le df1 = identify_colummns_types dp le df2 := by
  simp only [identify_colummns_types, df_head]
  rw [h]

theorem c9_deterministic_witness :
    identify_colummns_types (fun _ => false) literal_eval_model ⟨[("a", ["1"])]⟩
      = identify_colummns_types (fun _ => false) literal_eval_model ⟨[("a", ["1"])]⟩ :=
  c9_deterministic _ _ _ _ rfl

theorem choose_type_priority_range (ts : List (Option String)) :
    choose_type_priority ts = "VARCHAR(100)" ∨ choose_type_priority ts = "DECIMAL(17,4)"
    ∨ choose_type_priority ts = "INT" ∨ choose_type_priority ts = "DATETIME" := by
  unfold choose_type_priority
  split_ifs <;> simp

/-- C10: the inferred mapping has exactly the column names as keys, in
order (hence as a set, given the Table invariant that names are unique),
and every value is one of the four SQL type strings; an unrecognized
guess such as bool falls to the default VARCHAR(100). -/
theorem c10_total_mapping (dp : String → Bool) (le : String → Option String)
    (df : DataFrame) (h : (df.cols.map Prod.fst).Nodup) :
    ((identify_colummns_types dp le df).map Prod.fst = df.cols.map Prod.fst)
    ∧ (∀ p ∈ identify_colummns_types dp le df,
        p.2 = "VARCHAR(100)" ∨ p.2 = "DECIMAL(17,4)" ∨ p.2 = "INT" ∨ p.2 = "DATETIME")
    ∧ ((identify_colummns_types dp le df).map Prod.fst).Nodup
    ∧ identify_colummns_types (fun _ => false) literal_eval_model
        ⟨[("c", ["True"])]⟩ = [("c", "VARCHAR(100)")] := by
  have hkeys : (identify_colummns_types dp le df).map Prod.fst = df.cols.map Prod.fst := by
    simp [identify_colummns_types, df_head, List.map_map, Function.comp]
  refine ⟨hkeys, ?_, hkeys ▸ h, by decide⟩
  intro p hp
  simp only [identify_colummns_types, df_head, List.map_map, List.mem_map,
    Function.comp] at hp
  rcases hp with ⟨c, _, rfl⟩
  exact choose_type_priority_range _

theorem c10_total_mapping_witness :
    (identify_colummns_types (fun _ => false) literal_eval_model
      ⟨[("a", ["1"]), ("b", ["x"])]⟩).map Prod.fst = ["a", "b"] := by
  have h := c10_total_mapping (fun _ => false) literal_eval_model
    ⟨[("a", ["1"]), ("b", ["x"])]⟩ (by decide)
  exact h.1.trans (by decide)

/-- A decoded Python JSON value (json.loads output). -/
inductive Json where
  | null
  | boolean (b : Bool)
  | num (n : Int)
  | str (s : String)
  | arr (elems : List Json)
  | obj (fields : List (String × Json))

/-- Models the Python subscript j[k]: a value for an object holding the
key, none for every case that raises KeyError or TypeError (all of which
the json reader catches). -/
def json_get : Json → String → Option Json
  | .obj fields, k => fields.lookup k
  | _, _ => none

/-- The table built by the hierarchical json reader before any string
rendering: column name values and positional rows. -/
structure JTable where
  names : List Json
  rows : List (List Json)

/-- Models the comprehension mapping c to c[name-key] over the columns
metadata: requires a list of objects each holding the key, as iterating
anything else raises inside the caught region. -/
def column_names : Json → Option (List Json)
  | .arr cs => cs.mapM (fun c => json_get c "name")
  | _ => none

def isArr : Json → Bool
  | .arr _ => true
  | _ => false

def getArr : Json → List Json
  | .arr xs => xs
  | _ => []

/-- Model of the pandas DataFrame constructor on data plus explicit
column labels: list-of-lists data must have maximal row width equal to
the number of labels (otherwise pandas raises, which the reader catches
into none) and shorter rows are padded with NaN, modelled as null;
list-of-scalars data forms a single column; any other data shape is
modelled as a caught failure. -/
def pandas_mkDF (rows : Json) (names : List Json) : Option JTable :=
  match rows with
  | .arr rlist =>
    if rlist.all isArr then
      if rlist.isEmpty then some ⟨names, []⟩
      else if ((rlist.map getArr).map List.length).foldr max 0 = names.length then
        some ⟨names, (rlist.map getArr).map
          (fun r => r ++ List.replicate (names.length - r.length) Json.null)⟩
      else none
    else if rlist.all (fun r => !(isArr r)) then
      if names.length = 1 then some ⟨names, rlist.map (fun r => [r])⟩ else none
    else none
  | _ => none

/-- A Python computation that either raises (error message) or returns. -/
abbrev PyResult (α : Type) := Except String α

/-- Embeds dataframe_from_json (src/main.py lines 23-38): extract the
data attribute, then the meta view columns path, then the name of each
column, then build the frame; every failure along the way is caught and
becomes none.  The decode parameter carries the outcome of opening and
json-decoding the file. -/
def dataframe_from_json (decoded : PyResult Json) : Option JTable :=
  match decoded with
  | .error _ => none
  | .ok j =>
    (json_get j "data").bind (fun rows =>
      (((json_get j "meta").bind (fun m => json_get m "view")).bind
          (fun v => json_get v "columns")).bind (fun cols =>
        (column_names cols).bind (fun names =>
          pandas_mkDF rows names)))

/-- Embeds the try-except of dataframe_from_xml (src/main.py lines
41-67): the whole parse-and-assemble computation is a parameter, a raise
becomes none. -/
def dataframe_from_xml (attempt : PyResult DataFrame) : Option DataFrame :=
  match attempt with
  | .ok df => some df
  | .error _ => none

/-- Embeds the try-except of dataframe_from_rfd (src/main.py lines
70-81), like the xml reader. -/
def dataframe_from_rfd (attempt : PyResult DataFrame) : Option DataFrame :=
  match attempt with
  | .ok df => some df
  | .error _ => none

/-- Models str() rendering of a decoded json scalar when a json table
becomes a string frame; kept abstract as a parameter of read_file. -/
def jtable_to_dataframe (render : Json → String) (t : JTable) : DataFrame :=
  ⟨(List.range t.names.length).map (fun i =>
    (render (t.names.getD i Json.null), t.rows.map (fun r => render (r.getD i Json.null))))⟩

/-- Models filename.rpartition on the dot: the text after the last dot,
or the whole string when there is none. -/
def file_ext (filename : String) : String :=
  ⟨(pySplit filename '.').getLastD []⟩

/-- Embeds read_file (src/main.py lines 84-109).  The branches for xlsx,
xls and csv call the pandas readers with no try-except, so their raise
propagates (stays an error); the xml, json and rdf branches go through
the catching readers; an unknown extension yields no frame. -/
def read_file (render : Json → String)
    (excelAttempt csvAttempt xmlAttempt rdfAttempt : PyResult DataFrame)
    (jsonAttempt : PyResult Json) (filename : String) : PyResult (Option DataFrame) :=
  let file_type := file_ext filename
  if file_type = "xlsx" ∨ file_type = "xls" then excelAttempt.map some
  else if file_type = "csv" then csvAttempt.map some
  else if file_type = "xml" then Except.ok (dataframe_from_xml xmlAttempt)
  else if file_type = "json" then
    Except.ok ((dataframe_from_json jsonAttempt).map (jtable_to_dataframe render))
  else if file_type = "rdf" then Except.ok (dataframe_from_rfd rdfAttempt)
  else Except.ok none

/-- Claim C3 as stated is false for the spreadsheet and delimited-text
branches: when the underlying pandas reader raises on malformed content,
read_file propagates the exception instead of returning no Table. -/
theorem c3_counterexample :
    read_file (fun _ => "") (Except.error "XLRDError") (Except.error "ParserError")
        (Except.ok ⟨[]⟩) (Except.ok ⟨[]⟩) (Except.error "JSONDecodeError") "bad.csv"
      = Except.error "ParserError"
    ∧ read_file (fun _ => "") (Except.error "XLRDError") (Except.error "ParserError")
        (Except.ok ⟨[]⟩) (Except.ok ⟨[]⟩) (Except.error "JSONDecodeError") "bad.xlsx"
      = Except.error "XLRDError" :=
  ⟨rfl, rfl⟩

/-- C3 amended: parse failures are caught and become an absent result
only for the xml, json and rdf readers — those branches never raise —
while for xlsx, xls and csv the pandas exception propagates past the
reader boundary; an unknown extension yields no Table without raising. -/
theorem c3_reader_boundary (render : Json → String)
    (ex cs xm rd : PyResult DataFrame) (js : PyResult Json) (fname : String) :
    (file_ext fname = "xml" → ∃ o, read_file render ex cs xm rd js fname = Except.ok o)
    ∧ (file_ext fname = "json" → ∃ o, read_file render ex cs xm rd js fname = Except.ok o)
    ∧ (file_ext fname = "rdf" → ∃ o, read_file render ex cs xm rd js fname = Except.ok o)
    ∧ (file_ext fname = "xml" → ∀ e, xm = Except.error e →
        read_file render ex cs xm rd js fname = Except.ok none)
    ∧ (file_ext fname = "json" → ∀ e, js = Except.error e →
        read_file render ex cs xm rd js fname = Except.ok none)
    ∧ (file_ext fname = "rdf" → ∀ e, rd = Except.error e →
        read_file render ex cs xm rd js fname = Except.ok none)
    ∧ (file_ext fname = "csv" → ∀ e, cs = Except.error e →
        read_file render ex cs xm rd js fname = Except.error e)
    ∧ ((file_ext fname = "xlsx" ∨ file_ext fname = "xls") → ∀ e, ex = Except.error e →
        read_file render ex cs xm rd js fname = Except.error e)
    ∧ (file_ext fname ∉ ["xlsx", "xls", "csv", "xml", "json", "rdf"] →
        read_file render ex cs xm rd js fname = Except.ok none) := by
  refine ⟨?_, ?_, ?_, ?_, ?_, ?_, ?_, ?_, ?_⟩
  · intro h
    exact ⟨dataframe_from_xml xm, by simp [read_file, h]⟩
  · intro h
    exact ⟨(dataframe_from_json js).map (jtable_to_dataframe render), by simp [read_file, h]⟩
  · intro h
    exact ⟨dataframe_from_rfd rd, by simp [read_file, h]⟩
  · intro h e he
    simp [read_file, h, he, dataframe_from_xml]
  · intro h e he
    simp [read_file, h, he, dataframe_from_json]
  · intro h e he
    simp [read_file, h, he, dataframe_from_rfd]
  · intro h e he
    simp [read_file, h, he, Except.map]
  · rintro (h | h) e he <;> simp [read_file, h, he, Except.map]
  · intro h
    simp only [List.mem_cons, List.mem_singleton, not_or] at h
    obtain ⟨h1, h2, h3, h4, h5, h6⟩ := h
    simp [read_file, h1, h2, h3, h4, h5, h6]

theorem c3_reader_boundary_witness :
    (∃ o, read_file (fun _ => "") (Except.ok ⟨[]⟩) (Except.ok ⟨[]⟩)
        (Except.error "ParseError") (Except.ok ⟨[]⟩) (Except.ok Json.null) "bad.xml"
      = Except.ok o)
    ∧ read_file (fun _ => "") (Except.ok ⟨[]⟩) (Except.ok ⟨[]⟩)
        (Except.error "ParseError") (Except.ok ⟨[]⟩) (Except.ok Json.null) "bad.xml"
      = Except.ok none := by
  have h := c3_reader_boundary (fun _ => "") (Except.ok ⟨[]⟩) (Except.ok ⟨[]⟩)
    (Except.error "ParseError") (Except.ok ⟨[]⟩) (Except.ok Json.null) "bad.xml"
  exact ⟨h.1 rfl, h.2.2.2.1 rfl "ParseError" rfl⟩

theorem foldr_max_const {L : Nat} :
    ∀ (l : List Nat), l ≠ [] → (∀ x ∈ l, x = L) → l.foldr max 0 = L := by
  intro l
  induction l with
  | nil => intro h _; exact absurd rfl h
  | cons x xs ih =>
    intro _ hall
    cases xs with
    | nil => simp [hall x (by simp)]
    | cons y ys =>
      have hx := hall x (List.mem_cons_self x _)
      have hys : (y :: ys).foldr max 0 = L :=
        ih (by simp) (fun z hz => hall z (List.mem_cons_of_mem x hz))
      simp [List.foldr_cons, hys, hx]

/-- C7: on a well-formed hierarchical json document — a data array of
positional rows matching the column count, and a meta view columns array
of objects with a name — the reader yields exactly those names in order
and those rows positionally; a decode failure, a missing or malformed
data key path, a missing or malformed meta view columns key path, or a
columns list without name keys, all yield no Table (none) rather than a
raise. -/
theorem c7_json_reader (doc cols : Json) (names : List Json) (rows : List (List Json))
    (hd : json_get doc "data" = some (Json.arr (rows.map Json.arr)))
    (hm : ((json_get doc "meta").bind (fun m => json_get m "view")).bind
        (fun v => json_get v "columns") = some cols)
    (hn : column_names cols = some names)
    (hrect : ∀ r ∈ rows, r.length = names.length) :
    dataframe_from_json (Except.ok doc) = some ⟨names, rows⟩
    ∧ (∀ e, dataframe_from_json (Except.error e) = none)
    ∧ (∀ j, json_get j "data" = none → dataframe_from_json (Except.ok j) = none)
    ∧ (∀ j d, json_get j "data" = some d →
        ((json_get j "meta").bind (fun m => json_get m "view")).bind
          (fun v => json_get v "columns") = none →
        dataframe_from_json (Except.ok j) = none)
    ∧ (∀ j d c, json_get j "data" = some d →
        ((json_get j "meta").bind (fun m => json_get m "view")).bind
          (fun v => json_get v "columns") = some c →
        column_names c = none →
        dataframe_from_json (Except.ok j) = none) := by
  refine ⟨?_, fun e => rfl, ?_, ?_, ?_⟩
  · have hall : (rows.map Json.arr).all isArr = true := by
      simp [List.all_eq_true, isArr]
    simp only [dataframe_from_json, hd, hm, hn, Option.some_bind, pandas_mkDF]
    rw [if_pos hall]
    have hrws : (rows.map Json.arr).map getArr = rows := by
      rw [List.map_map]
      calc List.map (getArr ∘ Json.arr) rows
          = rows.map id := List.map_congr_left (fun r _ => rfl)
        _ = rows := List.map_id rows
    by_cases hempty : rows = []
    · subst hempty
      simp
    · have hne : (rows.map Json.arr).isEmpty = false := by
        cases rows with
        | nil => exact absurd rfl hempty
        | cons r rs => rfl
      rw [hne]
      simp only [hrws, Bool.false_eq_true, if_false]
      have hfold : ((rows.map List.length).foldr max 0) = names.length := by
        apply foldr_max_const
        · simp [hempty]
        · intro x hx
          rcases List.mem_map.mp hx with ⟨r, hr, rfl⟩
          exact hrect r hr
      rw [if_pos hfold]
      congr 1
      congr 1
      have : ∀ r ∈ rows, r ++ List.replicate (names.length - r.length) Json.null = r := by
        intro r hr
        rw [hrect r hr]
        simp
      calc rows.map (fun r => r ++ List.replicate (names.length - r.length) Json.null)
          = rows.map id := List.map_congr_left this
        _ = rows := List.map_id rows
  · intro j hj
    simp only [dataframe_from_json, hj, Option.none_bind]
  · intro j d hdj hcj
    simp only [dataframe_from_json, hdj, hcj, Option.some_bind, Option.none_bind]
  · intro j d c hdj hcj hnj
    simp only [dataframe_from_json, hdj, hcj, hnj, Option.some_bind, Option.none_bind]

theorem c7_json_reader_witness :
    dataframe_from_json (Except.ok (Json.obj
      [("data", Json.arr [Json.arr [Json.str "v1", Json.num 3]]),
       ("meta", Json.obj [("view", Json.obj [("columns", Json.arr
          [Json.obj [("name", Json.str "A")], Json.obj [("name", Json.str "B")]])])])]))
      = some ⟨[Json.str "A", Json.str "B"], [[Json.str "v1", Json.num 3]]⟩ := by
  have h := c7_json_reader
    (Json.obj
      [("data", Json.arr [Json.arr [Json.str "v1", Json.num 3]]),
       ("meta", Json.obj [("view", Json.obj [("columns", Json.arr
          [Json.obj [("name", Json.str "A")], Json.obj [("name", Json.str "B")]])])])])
    (Json.arr [Json.obj [("name", Json.str "A")], Json.obj [("name", Json.str "B")]])
    [Json.str "A", Json.str "B"] [[Json.str "v1", Json.num 3]]
    rfl rfl rfl
    (by intro r hr; rw [List.mem_singleton] at hr; subst hr; rfl)
  exact h.1

/-- The number of rows of a frame: the length of its longest column (all
columns agree on rectangular frames). -/
def df_nrows (df : DataFrame) : Nat :=
  (df.cols.map (fun c => c.2.length)).foldr max 0

/-- The i-th row of a frame: the i-th cell of each column in column
order; a missing cell of a ragged frame renders as nan, though frames
built by the readers are rectangular. -/
def df_row (df : DataFrame) (i : Nat) : List String :=
  df.cols.map (fun c => c.2.getD i "nan")

/-- Models DataFrame.to_csv as a list of records of fields (the comma
and quote layer of the csv writer is not modelled): a header record of
the column names then one record per row in order, each prefixed with
the index column — row number under an empty header — exactly when index
is requested. -/
def to_csv (index : Bool) (df : DataFrame) : List (List String) :=
  ((if index then [""] else []) ++ df.cols.map Prod.fst)
    :: (List.range (df_nrows df)).map (fun i =>
      (if index then [toString i] else []) ++ df_row df i)

/-- Embeds export_csv (src/main.py lines 112-117): to_csv with
index=False and utf-8 encoding. -/
def export_csv (df : DataFrame) : List (List String) × String :=
  (to_csv false df, "utf-8")

/-- C8: the exported csv uses utf-8, is the header record of the column
names followed by the rows in original row order with fields in original
column order, and carries no index column — every record has exactly one
field per column, while the index=True variant would add one. -/
theorem c8_csv_export (df : DataFrame) (i : Nat) (hi : i < df_nrows df) :
    (export_csv df).2 = "utf-8"
    ∧ (export_csv df).1
        = (df.cols.map Prod.fst) :: (List.range (df_nrows df)).map (df_row df)
    ∧ (export_csv df).1.length = df_nrows df + 1
    ∧ (export_csv df).1.getD (i + 1) [] = df_row df i
    ∧ (∀ l ∈ (export_csv df).1, l.length = df.cols.length)
    ∧ (∀ l ∈ to_csv true df, l.length = df.cols.length + 1) := by
  have h2 : (export_csv df).1
      = (df.cols.map Prod.fst) :: (List.range (df_nrows df)).map (df_row df) := by
    simp [export_csv, to_csv]
  refine ⟨rfl, h2, ?_, ?_, ?_, ?_⟩
  · rw [h2]
    simp
  · rw [h2]
    rw [List.getD_cons_succ]
    simp [List.getD_eq_getElem?_getD, List.getElem?_map, List.getElem?_range hi]
  · intro l hl
    rw [h2] at hl
    rcases List.mem_cons.mp hl with rfl | hl
    · simp
    · rcases List.mem_map.mp hl with ⟨j, _, rfl⟩
      simp [df_row]
  · intro l hl
    rcases List.mem_cons.mp hl with rfl | hl
    · simp [to_csv]
    · simp only [to_csv, List.mem_map] at hl
      rcases hl with ⟨j, _, rfl⟩
      simp [df_row]

theorem c8_csv_export_witness :
    (export_csv ⟨[("a", ["1", "2"]), ("b", ["x", "y"])]⟩).1.getD 2 [] = ["2", "y"]
    ∧ (export_csv ⟨[("a", ["1", "2"]), ("b", ["x", "y"])]⟩).2 = "utf-8" := by
  have h := c8_csv_export ⟨[("a", ["1", "2"]), ("b", ["x", "y"])]⟩ 1 (by decide)
  exact ⟨h.2.2.2.1.trans (by decide), h.1⟩

end Scrapper
